import Mathlib

/-!
Verification development for the LG R290 heat-pump control repository.

The definitions below are a shallow embedding of the Python sources:
  lg_r290_modbus.py          (retry wrapper, register decode, full poll, power and
                              temperature writes)
  service/heating_curve.py   (heating-curve configuration, load and reload,
                              flow-temperature computation)
  service/adaptive_controller.py (controller tick, outdoor-temperature acquisition)
  monitor_and_keep_alive.py  (poller loop failure handling)

Temperatures are modelled as exact rationals, register words as naturals,
fallible operations as Option, and per-attempt transport outcomes as an
explicit oracle function so that the retry logic is a pure function of the
sequence of outcomes it observes.
-/

namespace LgR290

/-! ## Configuration constants (lg_r290_modbus.py lines 32-67) -/

def MAX_RETRIES : Nat := 3

/-- RETRY_DELAY = 2.0 seconds between retries. -/
def RETRY_DELAY : ℚ := 2

/-- COIL_POWER = 0 (documentation address 00001: Enable/Disable). -/
def COIL_POWER : Nat := 0

/-- HOLDING_OP_MODE = 0 (documentation address 40001: Operating Mode). -/
def HOLDING_OP_MODE : Nat := 0

/-- HOLDING_CONTROL_METHOD = 1 (documentation address 40002: Control Method). -/
def HOLDING_CONTROL_METHOD : Nat := 1

/-- HOLDING_TARGET_TEMP = 2 (documentation address 40003). -/
def HOLDING_TARGET_TEMP : Nat := 2

/-- HOLDING_AUTO_MODE_OFFSET = 4 (documentation address 40005). -/
def HOLDING_AUTO_MODE_OFFSET : Nat := 4

/-- HOLDING_ENERGY_STATE = 9 (documentation address 40010). -/
def HOLDING_ENERGY_STATE : Nat := 9

def INPUT_ERROR_CODE : Nat := 0
def INPUT_OPERATING_MODE : Nat := 1
def INPUT_RETURN_TEMP : Nat := 2
def INPUT_FLOW_TEMP : Nat := 3
def INPUT_OUTDOOR_TEMP : Nat := 12

/-! ## Temperature codec -/

/-- decode_temperature (lg_r290_modbus.py lines 73-82): LG uses signed 16-bit
integers with 0.1 degree resolution; a raw register value above 32767 is
interpreted through two-complement wraparound (value - 65536), then divided
by 10. -/
def decode_temperature (value : ℤ) : ℚ :=
  ((if 32767 < value then value - 65536 else value : ℤ) : ℚ) / 10

/-- Truncation toward zero, the behaviour of Python int() on a number. -/
def int_trunc (q : ℚ) : ℤ :=
  if 0 ≤ q then ⌊q⌋ else ⌈q⌉

/-- temp_value = int(temp * 10), the encoding performed by
set_target_temperature (lg_r290_modbus.py line 342). -/
def encode_temperature (temp : ℚ) : ℤ :=
  int_trunc (temp * 10)

/-- The 16-bit word actually held by a Modbus register: the encoded integer
reduced modulo 2^16, which realises the two-complement representation of
negative values (for example -50 becomes 65486). -/
def to_register16 (v : ℤ) : ℤ :=
  v % 65536

/-! ## Retry wrapper (lg_r290_modbus.py lines 89-158)

The pymodbus client is abstracted as an oracle giving, for each attempt
index, the outcome of that attempt: a timeout, some other exception, a
response whose isError() is true, or a response carrying a payload. -/

inductive AttemptOutcome (α : Type) where
  | timeout : AttemptOutcome α
  | exc : AttemptOutcome α
  | errorResponse : AttemptOutcome α
  | ok : α → AttemptOutcome α

def AttemptOutcome.isOk {α : Type} : AttemptOutcome α → Bool
  | .ok _ => true
  | _ => false

/-- Loop body of modbus_operation_with_retry, structurally recursive on the
number of remaining attempts. Returns the result handed to the caller, the
number of attempts actually executed, and the list of back-off sleeps (in
seconds) performed, in order. A sleep of RETRY_DELAY * attempt precedes
every attempt with index greater than zero. -/
def retryAux {α : Type} (outcomes : Nat → AttemptOutcome α) :
    Nat → Nat → Option α × Nat × List ℚ
  | _, 0 => (none, 0, [])
  | attempt, fuel + 1 =>
    let sleeps : List ℚ := if attempt = 0 then [] else [RETRY_DELAY * (attempt : ℚ)]
    match outcomes attempt with
    | .ok r => (some r, 1, sleeps)
    | _ =>
      let rest := retryAux outcomes (attempt + 1) fuel
      (rest.1, rest.2.1 + 1, sleeps ++ rest.2.2)

/-- modbus_operation_with_retry: up to MAX_RETRIES attempts starting at
attempt index 0; a response is accepted as soon as isError() is false (no
further check on the payload); every failure kind (timeout, exception,
error response) falls through to the next attempt, and exhaustion yields
None. -/
def modbus_operation_with_retry {α : Type} (outcomes : Nat → AttemptOutcome α) :
    Option α × Nat × List ℚ :=
  retryAux outcomes 0 MAX_RETRIES

/-! ## Full register poll (lg_r290_modbus.py lines 193-268) -/

/-- The dictionary returned by read_all_registers. -/
structure Snapshot where
  power_state : String
  error_code : Nat
  operating_mode : Nat
  flow_temp : ℚ
  return_temp : ℚ
  outdoor_temp : ℚ
  op_mode : Nat
  control_method : Nat
  target_temp : ℚ
  auto_mode_offset : Nat
  energy_state : Nat
deriving DecidableEq

/-- Per-attempt outcomes of the three reads issued by read_all_registers:
read_input_registers(0, 13), read_holding_registers(0, 10) and
read_coils(COIL_POWER, 1). -/
structure PollReads where
  inputAttempts : Nat → AttemptOutcome (List Nat)
  holdingAttempts : Nat → AttemptOutcome (List Nat)
  coilAttempts : Nat → AttemptOutcome (List Bool)

/-- read_all_registers. A None from either multi-register retry aborts the
poll. The coil read is different: a None coil result is *not* checked — the
expression `"ON" if (coil_result and coil_result.bits[0]) else "OFF"` turns
a failed coil read into the string "OFF". Indexing a register list beyond
its length raises IndexError, which the enclosing except handler converts
into an overall None; List.get? returning none models exactly that. -/
def read_all_registers (m : PollReads) : Option Snapshot :=
  match (modbus_operation_with_retry m.inputAttempts).1 with
  | none => none
  | some input_regs =>
    match (modbus_operation_with_retry m.holdingAttempts).1 with
    | none => none
    | some holding_regs =>
      let coil_result := (modbus_operation_with_retry m.coilAttempts).1
      let power_bit : Option Bool :=
        match coil_result with
        | none => some false
        | some bits => bits.get? 0
      match power_bit,
            input_regs.get? INPUT_ERROR_CODE, input_regs.get? INPUT_OPERATING_MODE,
            input_regs.get? INPUT_FLOW_TEMP, input_regs.get? INPUT_RETURN_TEMP,
            input_regs.get? INPUT_OUTDOOR_TEMP,
            holding_regs.get? HOLDING_OP_MODE, holding_regs.get? HOLDING_CONTROL_METHOD,
            holding_regs.get? HOLDING_TARGET_TEMP, holding_regs.get? HOLDING_AUTO_MODE_OFFSET,
            holding_regs.get? HOLDING_ENERGY_STATE with
      | some pb, some ec, some om, some ft, some rt, some ot,
        some opm, some cm, some tt, some amo, some es =>
        some
          { power_state := if pb then "ON" else "OFF"
            error_code := ec
            operating_mode := om
            flow_temp := decode_temperature (ft : ℤ)
            return_temp := decode_temperature (rt : ℤ)
            outdoor_temp := decode_temperature (ot : ℤ)
            op_mode := opm
            control_method := cm
            target_temp := decode_temperature (tt : ℤ)
            auto_mode_offset := amo
            energy_state := es }
      | _, _, _, _, _, _, _, _, _, _, _ => none

/-! ## set_power (lg_r290_modbus.py lines 271-323) -/

/-- A Modbus write issued on the wire. -/
inductive WriteAction where
  | writeRegister : Nat → ℤ → WriteAction
  | writeCoil : Nat → Bool → WriteAction
deriving DecidableEq

/-- Post-retry results of the up-to-three write operations set_power can
issue; None means the corresponding retry wrapper exhausted its attempts. -/
structure SetPowerOutcomes where
  controlMethodWrite : Option Unit
  opModeWrite : Option Unit
  coilWrite : Option Unit

/-- set_power: when turning ON it first writes Control Method = 0 (register
HOLDING_CONTROL_METHOD, documentation 40002) and Operating Mode = 4 (register
HOLDING_OP_MODE, documentation 40001), discarding both results, then writes
the power coil; when turning OFF only the coil is written. The returned
Boolean is determined solely by the coil write result. -/
def set_power (power_on : Bool) (o : SetPowerOutcomes) : Bool × List WriteAction :=
  let writes :=
    (if power_on then
      [WriteAction.writeRegister HOLDING_CONTROL_METHOD 0,
       WriteAction.writeRegister HOLDING_OP_MODE 4]
     else []) ++ [WriteAction.writeCoil COIL_POWER power_on]
  (o.coilWrite.isSome, writes)

/-! ## Heating-curve configuration (service/heating_curve.py) -/

/-- One breakpoint of a heating curve: a half-open outdoor interval and the
flow temperature it prescribes. -/
structure CurvePoint where
  outdoor_min : ℚ
  outdoor_max : ℚ
  flow_temp : ℚ
deriving DecidableEq

/-- A named heating curve with its (closed) target-room-temperature range. -/
structure HeatingCurve where
  name : String
  targetMin : ℚ
  targetMax : ℚ
  curve : List CurvePoint
deriving DecidableEq

/-- The settings block of the configuration. -/
structure CurveSettings where
  outdoor_cutoff_temp : ℚ
  outdoor_restart_temp : ℚ
  update_interval_seconds : ℚ
  min_flow_temp : ℚ
  max_flow_temp : ℚ
  adjustment_threshold : ℚ
  hysteresis_outdoor : ℚ
deriving DecidableEq

/-- A parsed heating-curve configuration: the ordered dictionary of curves
and the settings. -/
structure Config where
  heating_curves : List HeatingCurve
  settings : CurveSettings
deriving DecidableEq

/-- The built-in fallback returned by _get_default_config
(service/heating_curve.py lines 67-112), transcribed verbatim. -/
def default_config : Config :=
  { heating_curves :=
      [{ name := "ECO Mode"
         targetMin := 0, targetMax := 21
         curve :=
           [{ outdoor_min := -999, outdoor_max := -10, flow_temp := 46 },
            { outdoor_min := -10, outdoor_max := 0, flow_temp := 43 },
            { outdoor_min := 0, outdoor_max := 10, flow_temp := 38 },
            { outdoor_min := 10, outdoor_max := 18, flow_temp := 33 }] },
       { name := "Comfort Mode"
         targetMin := 21, targetMax := 23
         curve :=
           [{ outdoor_min := -999, outdoor_max := -10, flow_temp := 48 },
            { outdoor_min := -10, outdoor_max := 0, flow_temp := 45 },
            { outdoor_min := 0, outdoor_max := 10, flow_temp := 40 },
            { outdoor_min := 10, outdoor_max := 18, flow_temp := 35 }] },
       { name := "High Demand"
         targetMin := 23, targetMax := 999
         curve :=
           [{ outdoor_min := -999, outdoor_max := -10, flow_temp := 50 },
            { outdoor_min := -10, outdoor_max := 0, flow_temp := 47 },
            { outdoor_min := 0, outdoor_max := 10, flow_temp := 42 },
            { outdoor_min := 10, outdoor_max := 18, flow_temp := 37 }] }]
    settings :=
      { outdoor_cutoff_temp := 18
        outdoor_restart_temp := 17
        update_interval_seconds := 600
        min_flow_temp := 30
        max_flow_temp := 50
        adjustment_threshold := 2
        hysteresis_outdoor := 1 } }

/-- A configuration with the hysteresis thresholds of the scenario used by
the repository test script (cutoff 16, restart 15) and the default curves. -/
def hysteresis_config : Config :=
  { heating_curves := default_config.heating_curves
    settings :=
      { outdoor_cutoff_temp := 16
        outdoor_restart_temp := 15
        update_interval_seconds := 600
        min_flow_temp := 30
        max_flow_temp := 50
        adjustment_threshold := 2
        hysteresis_outdoor := 1 } }

/-- Rounding as performed by Python round(): nearest integer, ties to the
even integer. -/
def py_round (q : ℚ) : ℤ :=
  if q - (⌊q⌋ : ℚ) < 1 / 2 then ⌊q⌋
  else if (1 : ℚ) / 2 < q - (⌊q⌋ : ℚ) then ⌊q⌋ + 1
  else if ⌊q⌋ % 2 = 0 then ⌊q⌋ else ⌊q⌋ + 1

/-- _select_heating_curve (service/heating_curve.py lines 183-192): the
first curve whose closed target range contains the target room
temperature. -/
def select_heating_curve (cfg : Config) (target_room_temp : ℚ) : Option HeatingCurve :=
  cfg.heating_curves.find?
    (fun c => decide (c.targetMin ≤ target_room_temp) && decide (target_room_temp ≤ c.targetMax))

/-- _find_flow_temp_from_curve (service/heating_curve.py lines 194-204):
first breakpoint whose half-open interval [outdoor_min, outdoor_max)
contains the outdoor temperature. -/
def find_flow_temp_from_curve (curve : List CurvePoint) (outdoor_temp : ℚ) : Option ℚ :=
  (curve.find?
    (fun p => decide (p.outdoor_min ≤ outdoor_temp) && decide (outdoor_temp < p.outdoor_max))).map
    (fun p => p.flow_temp)

/-- calculate_flow_temp (service/heating_curve.py lines 114-181). The
function takes exactly two temperature arguments: it checks the outdoor
temperature against the cutoff, selects a curve by target room temperature,
looks up the breakpoint, clamps to the configured bounds and rounds. It has
no power-state parameter and consults no restart threshold. -/
def calculate_flow_temp (cfg : Config) (outdoor_temp target_room_temp : ℚ) : Option ℚ :=
  if cfg.settings.outdoor_cutoff_temp ≤ outdoor_temp then none
  else
    match select_heating_curve cfg target_room_temp with
    | none => none
    | some selected =>
      match find_flow_temp_from_curve selected.curve outdoor_temp with
      | none => none
      | some ft =>
        let clamped := max cfg.settings.min_flow_temp (min cfg.settings.max_flow_temp ft)
        some ((py_round clamped : ℤ) : ℚ)

/-! ## Configuration load and reload (service/heating_curve.py lines 19-65) -/

/-- Observable outcome of opening and JSON-parsing the configuration file.
The content carries the presence of the two top-level keys, the key sets of
the heating_curves and settings objects (what _validate_config inspects),
and the parsed typed content. -/
inductive ConfigFileState where
  | missing : ConfigFileState
  | invalidJson : ConfigFileState
  | content : Bool → Bool → List String → List String → Config → ConfigFileState

def required_curve_names : List String := ["eco", "comfort", "high"]

def required_setting_names : List String :=
  ["outdoor_cutoff_temp", "outdoor_restart_temp", "update_interval_seconds",
   "min_flow_temp", "max_flow_temp", "adjustment_threshold"]

/-- _validate_config (service/heating_curve.py lines 37-58): requires the
heating_curves and settings keys, the three named curves, and the six
numeric settings; a missing item raises ValueError. -/
def validate_config (hasHeatingCurves hasSettings : Bool)
    (curveNames settingNames : List String) : Bool :=
  hasHeatingCurves && hasSettings &&
  required_curve_names.all (fun n => curveNames.contains n) &&
  required_setting_names.all (fun n => settingNames.contains n)

/-- load_config (service/heating_curve.py lines 19-35): FileNotFoundError,
JSONDecodeError and ValueError from validation all fall back to the
built-in default configuration. -/
def load_config (file : ConfigFileState) : Config :=
  match file with
  | .missing => default_config
  | .invalidJson => default_config
  | .content hc hs cn sn cfg =>
    if validate_config hc hs cn sn then cfg else default_config

/-- reload_config (service/heating_curve.py lines 60-65): unconditionally
replaces the active configuration with whatever load_config returns and
reports whether it changed. -/
def reload_config (active : Config) (file : ConfigFileState) : Config × Bool :=
  let newConfig := load_config file
  (newConfig, decide (newConfig ≠ active))

/-! ## Adaptive controller (service/adaptive_controller.py) -/

/-- The two fields of status.json that _adjust_flow_temperature reads. -/
structure StatusData where
  power_state : String
  target_temp : ℚ
deriving DecidableEq

/-- The controller invokes calculate_flow_temp with three positional
arguments (outdoor_temp, target_room_temp, current_power) at
service/adaptive_controller.py lines 147-151, but the function defined in
service/heating_curve.py accepts only two; CPython therefore raises
TypeError at the call site, deterministically. -/
def calculate_flow_temp_three_arg (_cfg : Config) (_outdoor_temp _target_room_temp : ℚ)
    (_current_power : Bool) : Except String (Option ℚ) :=
  Except.error "TypeError"

/-- _adjust_flow_temperature (service/adaptive_controller.py lines
106-223), returning the list of Modbus writes the tick issues. Every
early-return path issues none; the three-argument flow-temperature call
raises and is caught by the enclosing except handler; and in the remaining
(unreachable) branches every Modbus write call is commented out
(READ-ONLY MODE), so they too issue none. -/
def adjust_flow_temperature (cfg : Config) (enabled : Bool)
    (outdoor_temp target_room_temp : Option ℚ) (status : Option StatusData) :
    List WriteAction :=
  if !enabled then []
  else
    match outdoor_temp, target_room_temp with
    | some odt, some trt =>
      match status with
      | none => []
      | some st =>
        let current_power := decide (st.power_state = "ON")
        match calculate_flow_temp_three_arg cfg odt trt current_power with
        | .error _ => []
        | .ok optimal =>
          match optimal with
          | none => []
          | some flow =>
            if cfg.settings.adjustment_threshold ≤ |st.target_temp - flow| then []
            else []
    | _, _ => []

/-- Observable outcome of the thermostat API request made by
_get_outdoor_temperature: an HTTP error or exception, a response without
the temp_outdoor field, or a value. -/
inductive ThermostatReading where
  | unavailable : ThermostatReading
  | missingField : ThermostatReading
  | value : ℚ → ThermostatReading

/-- Observable state of status.json as read by the fallback path: file
absent, unreadable, or present with an optional outdoor_temp field. -/
inductive CacheReading where
  | missingFile : CacheReading
  | readError : CacheReading
  | content : Option ℚ → CacheReading

/-- _get_outdoor_temperature (service/adaptive_controller.py lines
225-267): any value from the thermostat (zero included) is returned
directly; otherwise the status.json value is used only when present and
different from 0.0, else the function yields no reading. -/
def get_outdoor_temperature (ext : ThermostatReading) (cache : CacheReading) : Option ℚ :=
  match ext with
  | .value v => some v
  | _ =>
    match cache with
    | .content (some v) => if v = 0 then none else some v
    | _ => none

/-! ## Poller loop failure handling (monitor_and_keep_alive.py lines 195-238) -/

def max_consecutive_errors : Nat := 5

/-- Observable effects of one iteration of monitoring_loop. -/
structure CycleResult where
  nextErrors : Nat
  contentWritten : Option Snapshot
  touched : Bool
  reconnectAttempts : Nat
deriving DecidableEq

/-- One poll cycle: on a successful read the counter resets and the
snapshot is written; on a failed read the status file is only touched, the
counter is incremented, and when it reaches max_consecutive_errors the
connection is closed and exactly one reconnect is attempted, the counter
resetting only if that reconnect succeeds. -/
def poll_cycle (consecutive_errors : Nat) (readResult : Option Snapshot)
    (reconnectSucceeds : Bool) : CycleResult :=
  match readResult with
  | some s =>
    { nextErrors := 0, contentWritten := some s, touched := false, reconnectAttempts := 0 }
  | none =>
    let errs := consecutive_errors + 1
    if max_consecutive_errors ≤ errs then
      { nextErrors := if reconnectSucceeds then 0 else errs
        contentWritten := none
        touched := true
        reconnectAttempts := 1 }
    else
      { nextErrors := errs, contentWritten := none, touched := true, reconnectAttempts := 0 }

/-! ## Concrete scenarios used by the witnesses and counterexamples below -/

/-- A poll in which the input-register read succeeds on the first attempt
but carries only 3 of the 13 requested values, while the holding and coil
reads are healthy. -/
def shortPoll : PollReads :=
  { inputAttempts := fun _ => AttemptOutcome.ok [1, 2, 3]
    holdingAttempts := fun _ => AttemptOutcome.ok [0, 0, 0, 0, 0, 0, 0, 0, 0, 0]
    coilAttempts := fun _ => AttemptOutcome.ok [true] }

/-- A poll in which both multi-register reads succeed with full-length
responses but every attempt of the coil read returns an error response. -/
def coilFailPoll : PollReads :=
  { inputAttempts := fun _ => AttemptOutcome.ok [0, 2, 300, 350, 0, 0, 0, 0, 0, 0, 0, 0, 71]
    holdingAttempts := fun _ => AttemptOutcome.ok [4, 0, 400, 0, 0, 0, 0, 0, 0, 0]
    coilAttempts := fun _ => AttemptOutcome.errorResponse }

/-! ## Theorems -/

/-- Closed form of the three-attempt retry loop, obtained by unrolling
retryAux over MAX_RETRIES = 3. -/
theorem retry_unfold {α : Type} (outcomes : Nat → AttemptOutcome α) :
    modbus_operation_with_retry outcomes =
      match outcomes 0 with
      | .ok r => (some r, 1, [])
      | _ =>
        match outcomes 1 with
        | .ok r => (some r, 2, [2])
        | _ =>
          match outcomes 2 with
          | .ok r => (some r, 3, [2, 4])
          | _ => (none, 3, [2, 4]) := by
  rcases h0 : outcomes 0 <;> rcases h1 : outcomes 1 <;> rcases h2 : outcomes 2 <;>
    simp [modbus_operation_with_retry, retryAux, MAX_RETRIES, RETRY_DELAY, h0, h1, h2] <;>
    norm_num

/-- C7: every operation through modbus_operation_with_retry makes at most
MAX_RETRIES = 3 attempts; the executed retry attempt with index i is
preceded by a sleep of RETRY_DELAY * i seconds (2 s before attempt 1, 4 s
before attempt 2, and nothing else); and when every attempt ends in a
timeout, exception or protocol-error response, the wrapper hands None back
to the caller instead of raising. -/
theorem retry_bounds_and_backoff {α : Type} (outcomes : Nat → AttemptOutcome α) :
    (modbus_operation_with_retry outcomes).2.1 ≤ MAX_RETRIES ∧
    (modbus_operation_with_retry outcomes).2.2 =
      (List.range ((modbus_operation_with_retry outcomes).2.1 - 1)).map
        (fun i => RETRY_DELAY * ((i : ℚ) + 1)) ∧
    ((∀ i, i < MAX_RETRIES → (outcomes i).isOk = false) →
      (modbus_operation_with_retry outcomes).1 = none) := by
  rw [retry_unfold]
  rcases h0 : outcomes 0 <;> rcases h1 : outcomes 1 <;> rcases h2 : outcomes 2 <;>
    refine ⟨by norm_num [MAX_RETRIES], by norm_num [List.range_succ, RETRY_DELAY],
      fun hall => ?_⟩ <;>
    (have c0 := hall 0 (by norm_num [MAX_RETRIES])
     have c1 := hall 1 (by norm_num [MAX_RETRIES])
     have c2 := hall 2 (by norm_num [MAX_RETRIES])
     simp only [h0] at c0
     simp only [h1] at c1
     simp only [h2] at c2
     simp [AttemptOutcome.isOk] at c0 c1 c2
     all_goals rfl)

/-- C7 witness: with every attempt timing out, the wrapper returns None. -/
theorem retry_bounds_and_backoff_witness :
    (modbus_operation_with_retry (fun _ => (AttemptOutcome.timeout : AttemptOutcome Nat))).1 =
      none :=
  (retry_bounds_and_backoff (fun _ => AttemptOutcome.timeout)).2.2 (fun _ _ => rfl)

/-- C1 counterexample: a first-attempt response that is not a protocol
error but carries only 3 values is returned by the retry wrapper as a
success, even though 13 values were requested — the wrapper performs no
count check, so it does return the short value list to its caller. -/
theorem retry_returns_short_response :
    (modbus_operation_with_retry (fun _ => AttemptOutcome.ok [1, 2, 3])).1 = some [1, 2, 3] ∧
    ([1, 2, 3] : List Nat).length ≠ 13 := ⟨rfl, by decide⟩

/-- C1 amended: the retry wrapper itself returns a short non-error
response as a success, but read_all_registers never builds a snapshot from
one: a short input-register response (fewer than 13 values) or a short
holding-register response (fewer than 10 values) makes the poll fail
overall, because the snapshot construction indexes the last requested
register and the resulting IndexError is caught and converted to None. -/
theorem short_response_fails_full_read (m : PollReads) (regs : List Nat) :
    ((modbus_operation_with_retry m.inputAttempts).1 = some regs → regs.length < 13 →
      read_all_registers m = none) ∧
    ((modbus_operation_with_retry m.holdingAttempts).1 = some regs → regs.length < 10 →
      read_all_registers m = none) := by
  constructor
  · intro hin hlen
    unfold read_all_registers
    rw [hin]
    rcases hh : (modbus_operation_with_retry m.holdingAttempts).1 with _ | hregs
    · rfl
    · dsimp only
      split
      · exfalso
        rename_i hpb hec hom hft hrt hot hopm hcm htt hamo hes
        obtain ⟨hlt, hv⟩ := List.get?_eq_some.mp hot
        simp only [INPUT_OUTDOOR_TEMP] at hlt
        omega
      · rfl
  · intro hhold hlen
    unfold read_all_registers
    rcases hi : (modbus_operation_with_retry m.inputAttempts).1 with _ | iregs
    · rfl
    · rw [hhold]
      dsimp only
      split
      · exfalso
        rename_i hpb hec hom hft hrt hot hopm hcm htt hamo hes
        obtain ⟨hlt, hv⟩ := List.get?_eq_some.mp hes
        simp only [HOLDING_ENERGY_STATE] at hlt
        omega
      · rfl

/-- C1 amended witness: the concrete short poll yields an overall failure. -/
theorem short_response_fails_full_read_witness :
    read_all_registers shortPoll = none :=
  (short_response_fails_full_read shortPoll [1, 2, 3]).1 rfl (by norm_num)

/-- C5 amended: a failed input-register or holding-register read makes the
whole poll fail, and a successful poll populates every register-derived
field from the values actually read — with the single exception of the
power state: when the coil read fails, the snapshot is still published and
power_state is silently defaulted to "OFF". -/
theorem read_all_registers_totality (m : PollReads) (iregs hregs : List Nat)
    (ec om rt ft ot opm cm tt amo es : Nat) :
    ((modbus_operation_with_retry m.inputAttempts).1 = none → read_all_registers m = none) ∧
    ((modbus_operation_with_retry m.holdingAttempts).1 = none → read_all_registers m = none) ∧
    ((modbus_operation_with_retry m.inputAttempts).1 = some iregs →
     (modbus_operation_with_retry m.holdingAttempts).1 = some hregs →
     (modbus_operation_with_retry m.coilAttempts).1 = none →
     iregs.get? INPUT_ERROR_CODE = some ec → iregs.get? INPUT_OPERATING_MODE = some om →
     iregs.get? INPUT_FLOW_TEMP = some ft → iregs.get? INPUT_RETURN_TEMP = some rt →
     iregs.get? INPUT_OUTDOOR_TEMP = some ot →
     hregs.get? HOLDING_OP_MODE = some opm → hregs.get? HOLDING_CONTROL_METHOD = some cm →
     hregs.get? HOLDING_TARGET_TEMP = some tt → hregs.get? HOLDING_AUTO_MODE_OFFSET = some amo →
     hregs.get? HOLDING_ENERGY_STATE = some es →
     read_all_registers m = some
       { power_state := "OFF"
         error_code := ec
         operating_mode := om
         flow_temp := decode_temperature (ft : ℤ)
         return_temp := decode_temperature (rt : ℤ)
         outdoor_temp := decode_temperature (ot : ℤ)
         op_mode := opm
         control_method := cm
         target_temp := decode_temperature (tt : ℤ)
         auto_mode_offset := amo
         energy_state := es }) := by
  refine ⟨fun h => ?_, fun h => ?_, ?_⟩
  · unfold read_all_registers
    rw [h]
  · unfold read_all_registers
    rcases hi : (modbus_operation_with_retry m.inputAttempts).1 with _ | iregs2
    · rfl
    · rw [h]
  · intro hi hh hc h1 h2 h3 h4 h5 h6 h7 h8 h9 h10
    unfold read_all_registers
    rw [hi, hh]
    dsimp only
    rw [hc]
    dsimp only
    rw [h1, h2, h3, h4, h5, h6, h7, h8, h9, h10]
    simp

/-- C5 counterexample: with healthy input and holding reads but a coil
read failing on every attempt, read_all_registers still publishes a fully
built snapshot whose power_state is the fabricated "OFF". -/
theorem coil_failure_defaults_power_off :
    read_all_registers coilFailPoll = some
      { power_state := "OFF", error_code := 0, operating_mode := 2,
        flow_temp := 35, return_temp := 30, outdoor_temp := 71 / 10,
        op_mode := 4, control_method := 0, target_temp := 40,
        auto_mode_offset := 0, energy_state := 0 } := by
  norm_num [read_all_registers, coilFailPoll, modbus_operation_with_retry, retryAux,
    MAX_RETRIES, decode_temperature, INPUT_ERROR_CODE, INPUT_OPERATING_MODE, INPUT_FLOW_TEMP,
    INPUT_RETURN_TEMP, INPUT_OUTDOOR_TEMP, HOLDING_OP_MODE, HOLDING_CONTROL_METHOD,
    HOLDING_TARGET_TEMP, HOLDING_AUTO_MODE_OFFSET, HOLDING_ENERGY_STATE]

/-- C5 amended witness: the amended theorem applied to the concrete
coil-failure poll. -/
theorem read_all_registers_totality_witness :
    read_all_registers coilFailPoll = some
      { power_state := "OFF", error_code := 0, operating_mode := 2,
        flow_temp := decode_temperature (350 : ℤ), return_temp := decode_temperature (300 : ℤ),
        outdoor_temp := decode_temperature (71 : ℤ),
        op_mode := 4, control_method := 0, target_temp := decode_temperature (400 : ℤ),
        auto_mode_offset := 0, energy_state := 0 } :=
  (read_all_registers_totality coilFailPoll
      [0, 2, 300, 350, 0, 0, 0, 0, 0, 0, 0, 0, 71] [4, 0, 400, 0, 0, 0, 0, 0, 0, 0]
      0 2 300 350 71 4 0 400 0 0).2.2
    rfl rfl rfl rfl rfl rfl rfl rfl rfl rfl rfl rfl rfl

/-- C2 (code bug): with cutoff 16 and restart 15, an outdoor temperature
of 15.5 degrees lies strictly between the restart and cutoff thresholds,
yet calculate_flow_temp — which takes no power-state argument and contains
no restart check — yields the flow temperature 35 instead of no flow
temperature, so a powered-off pump would be turned on; the controller and
the repository test script both pass a third current_power argument that
the function does not accept. -/
theorem calculate_flow_temp_ignores_power_state :
    hysteresis_config.settings.outdoor_restart_temp < 31 / 2 ∧
    (31 : ℚ) / 2 < hysteresis_config.settings.outdoor_cutoff_temp ∧
    calculate_flow_temp hysteresis_config (31 / 2) 22 = some 35 := by
  refine ⟨by norm_num [hysteresis_config], by norm_num [hysteresis_config], ?_⟩
  norm_num [calculate_flow_temp, select_heating_curve, find_flow_temp_from_curve,
    hysteresis_config, default_config, py_round, List.find?]

/-- C3 amended: no controller tick ever issues a Modbus write. The
three-argument flow-temperature call aborts the tick with a TypeError that
the enclosing handler swallows and, independently, every write call inside
the tick is disabled in read-only mode, so the dead-band comparison never
results in a setpoint write. -/
theorem adjust_never_writes (cfg : Config) (enabled : Bool)
    (outdoor_temp target_room_temp : Option ℚ) (status : Option StatusData) :
    adjust_flow_temperature cfg enabled outdoor_temp target_room_temp status = [] := by
  cases enabled <;> cases outdoor_temp <;> cases target_room_temp <;> cases status <;> rfl

/-- C3 counterexample: at outdoor 5, target room 22, the computed flow
temperature is 40, the reported setpoint 30 differs from it by 10, which
meets the threshold 2, and yet the tick issues zero writes rather than the
claimed exactly one. -/
theorem adjust_issues_no_write_above_threshold :
    calculate_flow_temp default_config 5 22 = some 40 ∧
    default_config.settings.adjustment_threshold ≤ |(30 : ℚ) - 40| ∧
    adjust_flow_temperature default_config true (some 5) (some 22)
      (some { power_state := "ON", target_temp := 30 }) = [] := by
  refine ⟨?_, by norm_num [default_config], rfl⟩
  norm_num [calculate_flow_temp, select_heating_curve, find_flow_temp_from_curve,
    default_config, py_round, List.find?]

/-- C4 counterexample: with the hysteresis configuration active, a reload
whose file is missing does not keep the previous configuration — the
active configuration becomes the built-in default, which differs from the
configuration that was active before. -/
theorem reload_failure_replaces_with_default :
    (reload_config hysteresis_config ConfigFileState.missing).1 = default_config ∧
    default_config ≠ hysteresis_config := by
  refine ⟨rfl, fun h => ?_⟩
  have := congrArg (fun c => c.settings.outdoor_cutoff_temp) h
  norm_num [default_config, hysteresis_config] at this

/-- C4 amended: a reload whose file is missing, unparsable, or fails
validation replaces the active configuration wholesale with the built-in
default configuration — never a partial mix, but also never the
previously active configuration. -/
theorem load_config_failure_yields_default (active cfg : Config)
    (hc hs : Bool) (cn sn : List String) :
    (reload_config active ConfigFileState.missing).1 = default_config ∧
    (reload_config active ConfigFileState.invalidJson).1 = default_config ∧
    (validate_config hc hs cn sn = false →
      (reload_config active (ConfigFileState.content hc hs cn sn cfg)).1 = default_config) := by
  refine ⟨rfl, rfl, fun h => ?_⟩
  simp [reload_config, load_config, h]

/-- C4 amended witness: a reload of a configuration file that parses but
lists none of the required curves falls back to the default. -/
theorem load_config_failure_yields_default_witness :
    (reload_config default_config
      (ConfigFileState.content true true [] [] hysteresis_config)).1 = default_config :=
  (load_config_failure_yields_default default_config hysteresis_config true true [] []).2.2 rfl

/-- C6 counterexample: when the external thermostat sensor reports exactly
zero, the controller uses that zero as the outdoor temperature instead of
falling back to the cached value 5. -/
theorem external_zero_reading_used :
    get_outdoor_temperature (ThermostatReading.value 0) (CacheReading.content (some 5)) =
      some 0 ∧ (0 : ℚ) ≠ 5 := ⟨rfl, by norm_num⟩

/-- C6 amended: the controller prefers the external sensor and uses any
value it reports, zero included; the fall-back to the cached device sensor
happens exactly when the external source is unavailable or lacks the
field, and it is the cached value that is discarded when it is exactly
zero or missing, the function then reporting no outdoor temperature. -/
theorem get_outdoor_temperature_fallback (v w : ℚ) (ext : ThermostatReading) :
    get_outdoor_temperature (ThermostatReading.value v) (CacheReading.content (some w)) =
      some v ∧
    ((ext = ThermostatReading.unavailable ∨ ext = ThermostatReading.missingField) →
      (get_outdoor_temperature ext (CacheReading.content (some w)) =
        if w = 0 then none else some w) ∧
      get_outdoor_temperature ext (CacheReading.content none) = none ∧
      get_outdoor_temperature ext CacheReading.missingFile = none ∧
      get_outdoor_temperature ext CacheReading.readError = none) := by
  refine ⟨rfl, fun h => ?_⟩
  rcases h with h | h <;> subst h <;>
    refine ⟨?_, rfl, rfl, rfl⟩ <;>
    by_cases hw : w = 0 <;> simp [get_outdoor_temperature, hw]

/-- C6 amended witness: with the thermostat unavailable and a cached value
of 7, the fall-back value is used. -/
theorem get_outdoor_temperature_fallback_witness :
    get_outdoor_temperature ThermostatReading.unavailable (CacheReading.content (some 7)) =
      some 7 := by
  have h := (get_outdoor_temperature_fallback 0 7 ThermostatReading.unavailable).2 (Or.inl rfl)
  rw [h.1]
  norm_num

/-- C8: every temperature with one decimal digit between -200.0 and
3200.0 degrees round-trips exactly through the times-ten fixed-point
encoding, the 16-bit two-complement register representation and
decode_temperature. -/
theorem temperature_roundtrip (t : ℤ) (hlow : -2000 ≤ t) (hhigh : t ≤ 32000) :
    decode_temperature (to_register16 (encode_temperature ((t : ℚ) / 10))) = (t : ℚ) / 10 := by
  have henc : encode_temperature ((t : ℚ) / 10) = t := by
    unfold encode_temperature int_trunc
    rw [div_mul_cancel₀ _ (by norm_num : (10 : ℚ) ≠ 0)]
    rcases le_or_lt 0 (t : ℚ) with h | h
    · rw [if_pos h, Int.floor_intCast]
    · rw [if_neg (not_le.mpr h), Int.ceil_intCast]
  rw [henc]
  unfold to_register16 decode_temperature
  rcases le_or_lt 0 t with hpos | hneg
  · have hmod : t % 65536 = t := Int.emod_eq_of_lt hpos (by omega)
    rw [hmod, if_neg (by omega)]
  · have hmod : t % 65536 = t + 65536 := by omega
    rw [hmod, if_pos (by omega)]
    push_cast
    ring_nf

/-- C8 witness: -5.0 degrees encodes to the raw register value
65536 - 50 = 65486, which decodes back to -5.0 exactly. -/
theorem temperature_roundtrip_witness :
    to_register16 (encode_temperature (((-50 : ℤ) : ℚ) / 10)) = 65486 ∧
    decode_temperature 65486 = -5 ∧
    decode_temperature (to_register16 (encode_temperature (((-50 : ℤ) : ℚ) / 10))) =
      ((-50 : ℤ) : ℚ) / 10 :=
  ⟨by
     norm_num [encode_temperature, int_trunc, to_register16]
     decide,
   by norm_num [decode_temperature],
   temperature_roundtrip (-50) (by norm_num) (by norm_num)⟩

/-- C9: a failed poll cycle touches the status file without rewriting its
contents; the fifth consecutive failure (counter entering at 4) triggers
exactly one reconnect attempt while earlier failures trigger none; a
successful read resets the counter and writes the snapshot; and a
successful reconnect after the threshold resets the counter to zero. -/
theorem poll_cycle_failure_liveness (n : Nat) (s : Snapshot) (r : Bool) :
    (poll_cycle n none r).touched = true ∧
    (poll_cycle n none r).contentWritten = none ∧
    (n = 4 → (poll_cycle n none r).reconnectAttempts = 1) ∧
    (n < 4 → (poll_cycle n none r).reconnectAttempts = 0) ∧
    (poll_cycle n (some s) r).nextErrors = 0 ∧
    (poll_cycle n (some s) r).contentWritten = some s ∧
    (4 ≤ n → r = true → (poll_cycle n none r).nextErrors = 0) := by
  refine ⟨?_, ?_, fun h => ?_, fun h => ?_, rfl, rfl, fun h hr => ?_⟩
  · by_cases h5 : max_consecutive_errors ≤ n + 1 <;> simp [poll_cycle, h5]
  · by_cases h5 : max_consecutive_errors ≤ n + 1 <;> simp [poll_cycle, h5]
  · subst h
    simp [poll_cycle, max_consecutive_errors]
  · have h5 : ¬ max_consecutive_errors ≤ n + 1 := by
      simp only [max_consecutive_errors]
      omega
    simp [poll_cycle, h5]
  · subst hr
    have h5 : max_consecutive_errors ≤ n + 1 := by
      simp only [max_consecutive_errors]
      omega
    simp [poll_cycle, h5]

/-- C9 witness: the fifth consecutive failure with a succeeding reconnect
touches the file, attempts exactly one reconnect and resets the counter. -/
theorem poll_cycle_failure_liveness_witness :
    (poll_cycle 4 none true).touched = true ∧
    (poll_cycle 4 none true).reconnectAttempts = 1 ∧
    (poll_cycle 4 none true).nextErrors = 0 := by
  have h := poll_cycle_failure_liveness 4
    { power_state := "ON", error_code := 0, operating_mode := 2, flow_temp := 35,
      return_temp := 30, outdoor_temp := 5, op_mode := 4, control_method := 0,
      target_temp := 40, auto_mode_offset := 0, energy_state := 0 } true
  exact ⟨h.1, h.2.2.1 rfl, h.2.2.2.2.2.2 (by norm_num) rfl⟩

/-- C10: turning the pump on writes Control Method = 0 to register 40002
and Operating Mode = 4 to register 40001 before the power coil, turning it
off writes only the coil, and in both cases the reported success depends
solely on the coil write result, the two auxiliary write results being
discarded. -/
theorem set_power_write_sequence (o : SetPowerOutcomes) :
    set_power true o =
      (o.coilWrite.isSome,
       [WriteAction.writeRegister HOLDING_CONTROL_METHOD 0,
        WriteAction.writeRegister HOLDING_OP_MODE 4,
        WriteAction.writeCoil COIL_POWER true]) ∧
    set_power false o = (o.coilWrite.isSome, [WriteAction.writeCoil COIL_POWER false]) :=
  ⟨rfl, rfl⟩

end LgR290
